import Mathlib

/-!
Shallow embedding of `src/charts/helpers/exportChart.js` (britecharts chart
export pipeline) together with proofs about the claims of its specification.

Modelling conventions:
* JS strings are Lean `String`s; regex/string `replace` is modelled below on
  `List Char`.
* JS `undefined`/`null` arguments are modelled with `Option`; a JS value that
  can be a number or `NaN` is an `Option ℕ`.
* The live browser document is modelled as the ordered list of nodes appended
  to `document.body` by this module (`ExportState.doc`), together with trace
  fields recording the module's observable side effects (images created,
  canvases created, downloads triggered, `onload` bindings, style-measurement
  reads).
* Platform collaborators that the spec declares out of scope (the
  serialize-with-styles utility, browser identification, `offsetWidth`
  rendering measurement, `canvas.toDataURL`) are fields of an `Env` record.
* A thrown JS exception is modelled by `Option.none` at the outermost level of
  the function that throws it.
-/

/-- A DOM node appended to `document.body` by this module.  `titleText` is the
transient `<text id="britechart_title">` measurement node built in
`getTitleWidth`; `link` is the transient `<a>` element of `downloadCanvas`;
`other` stands for any node that was already in the document. -/
inductive NodeKind where
  | titleText (title : String)
  | link (href downloadName : String)
  | other (elemIdent : Option String) (tag : String)
  deriving DecidableEq, Repr

/-- The value of the node's `id` attribute, as searched by
`document.getElementById`. -/
def NodeKind.elemId : NodeKind → Option String
  | .titleText _ => some "britechart_title"
  | .link _ _ => none
  | .other i _ => i

/-- A `<canvas>` element: `createCanvas` only ever sets its two dimensions. -/
structure Canvas where
  width : ℕ
  height : ℕ
  deriving DecidableEq, Repr

/-- An `Image` object; the module only ever assigns its `src`. -/
structure Image where
  src : String
  deriving DecidableEq, Repr

/-- The d3 selection wrapping the chart's svg node.  The module reads its
`width` attribute and writes `version`/`xmlns` before serializing. -/
structure Svg where
  widthAttr : Option String
  versionAttr : Option String := none
  xmlnsAttr : Option String := none
  deriving DecidableEq, Repr

/-- Observable browser state threaded through the module: the document's node
list plus traces of every side effect the module performs. -/
structure ExportState where
  /-- nodes currently appended to `document.body`, in document order -/
  doc : List NodeKind
  /-- downloads triggered by `link.click()`: (download name, href url) -/
  downloads : List (String × String)
  /-- `src` of every `Image` created by `createImage` -/
  imagesCreated : List String
  /-- dimensions of every canvas created by `createCanvas` -/
  canvasesCreated : List (ℕ × ℕ)
  /-- `img.onload` bindings made by `exportChart`: (img src, canvas dims, filename) -/
  onloadBound : List (String × (ℕ × ℕ) × Option String)
  /-- every `drawImage` call: (image src, canvas dims) -/
  draws : List (String × ℕ × ℕ)
  /-- number of `offsetWidth` measurement reads performed by `getTitleWidth` -/
  measureCount : ℕ
  deriving DecidableEq, Repr

/-- A browser state with an empty document and no recorded effects. -/
def initState : ExportState :=
  { doc := [], downloads := [], imagesCreated := [], canvasesCreated := []
    onloadBound := [], draws := [], measureCount := 0 }

/-- The platform collaborators the module consumes (spec §1: out-of-scope
external collaborators, specified only by the interface the core needs). -/
structure Env where
  /-- `bowser.name`, the browser identifier -/
  browserName : String
  /-- the black-box serialize-with-computed-styles utility applied to the svg node -/
  serialize : Svg → String
  /-- the rendered box width (`offsetWidth`) the browser reports for a node -/
  offsetWidth : NodeKind → ℕ
  /-- `canvas.toDataURL(mimeType)` -/
  toDataURL : Canvas → String → String

/-- The load event handed to `img.onload`; the handler only calls
`preventDefault()` on it, which mutates no state this model observes. -/
structure LoadEvent where
  eventName : String := "load"

/-! ### String `replace`: first occurrence only, with `$`-substitution

ECMA-262 `String.prototype.replace` does not splice the replacement string
literally: it first runs GetSubstitution over it, expanding `$$` to `$`, `$&`
to the matched text, `$` + backquote to the text preceding the match and `$\x27`
to the text following it (`$n`/`$<` forms stay literal here, since the
module's patterns — the literal `>` and the regexes `/<g/` and
`/url.*&quot;\)/` — have no capture groups or named groups). -/

/-- GetSubstitution for a match with no capture groups: `matched` is the
matched text, `before`/`after` the parts of the subject string around the
match, and the last argument the replacement template being expanded.  The
backquote (code 96) of the preceding-text form is written `Char.ofNat 96`. -/
def jsSubst (matched before after : List Char) : List Char → List Char
  | [] => []
  | c :: rest =>
    if c = '$' then
      match rest with
      | [] => ['$']
      | c2 :: rest2 =>
        if c2 = '$' then '$' :: jsSubst matched before after rest2
        else if c2 = '&' then matched ++ jsSubst matched before after rest2
        else if c2 = Char.ofNat 96 then before ++ jsSubst matched before after rest2
        else if c2 = '\'' then after ++ jsSubst matched before after rest2
        else '$' :: jsSubst matched before after (c2 :: rest2)
    else c :: jsSubst matched before after rest

/-- JS `String.prototype.replace` with a string pattern: replaces only the
first occurrence of `pat` with the `jsSubst`-expanded replacement, and
returns the string unchanged when `pat` does not occur.  `before` accumulates
the already-scanned prefix (the text preceding the match).  (An empty pattern
matches at position 0, as in JS.) -/
def replaceFirstAux (pat repl : List Char) (before : List Char) :
    List Char → List Char
  | [] => if pat.isPrefixOf ([] : List Char) then jsSubst pat before [] repl else []
  | c :: rest =>
    if pat.isPrefixOf (c :: rest) then
      jsSubst pat before ((c :: rest).drop pat.length) repl ++
        (c :: rest).drop pat.length
    else c :: replaceFirstAux pat repl (before ++ [c]) rest

/-- `s.replace(pat, repl)` with a string pattern. -/
def replaceFirstList (pat repl s : List Char) : List Char :=
  replaceFirstAux pat repl [] s

/-- String-level wrapper for `replaceFirstList`. -/
def replaceFirstStr (s pat repl : String) : String :=
  String.mk (replaceFirstList pat.data repl.data s.data)

/-! ### The one regex the module uses: `/url.*&quot;\)/`

JS regex semantics for this pattern: the match is leftmost (smallest starting
index), `.*` is greedy and does not cross a newline, and only the first match
is replaced. -/

/-- Does `p` occur at index `i` of `s`? -/
def strAt (s : List Char) (i : ℕ) (p : List Char) : Bool :=
  p.isPrefixOf (s.drop i)

/-- No newline in `s` between indices `i` (inclusive) and `k` (exclusive);
this is the region the regex's `.*` has to cross. -/
def noNewline (s : List Char) (i k : ℕ) : Bool :=
  ((s.drop i).take (k - i)).all (fun c => c ≠ '\n')

/-- Greedy match of `url.*&quot;\)` starting exactly at index `i`: `url` must
occur at `i`, and the match extends to just after the rightmost occurrence of
`&quot;)` (7 characters) reachable from `i + 3` without crossing a newline.
Returns the exclusive end index of the match. -/
def matchAt (s : List Char) (i : ℕ) : Option ℕ :=
  if strAt s i "url".data then
    (List.range (s.length + 1)).reverse.findSome? (fun k =>
      if decide (i + 3 ≤ k) && strAt s k "&quot;)".data && noNewline s (i + 3) k then
        some (k + 7)
      else none)
  else none

/-- Leftmost match of `url.*&quot;\)` in `s`: (start index, exclusive end). -/
def firstUrlMatch (s : List Char) : Option (ℕ × ℕ) :=
  (List.range s.length).findSome? (fun i => (matchAt s i).map (fun e => (i, e)))

/-- JS `html.replace(/url.*&quot;\)/, repl)`: replace the leftmost greedy
match with the `jsSubst`-expanded replacement, or return the string unchanged
when there is no match. -/
def regexReplaceUrlQuot (s repl : String) : String :=
  match firstUrlMatch s.data with
  | some (i, e) =>
    String.mk (s.data.take i ++
      jsSubst ((s.data.drop i).take (e - i)) (s.data.take i) (s.data.drop e)
        repl.data ++
      s.data.drop e)
  | none => s

/-! ### Module configuration -/

/-- The module-level `config` object. -/
structure ExportConfig where
  styleClass : String
  defaultFilename : String
  chartBackground : String
  imageSourceBase : String

/-- `config` as initialized at module load. -/
def config : ExportConfig :=
  { styleClass := "britechartStyle"
    defaultFilename := "britechart.png"
    chartBackground := "white"
    imageSourceBase := "data:image/svg+xml;base64," }

/-- The `styleBackgroundString` getter:
``<style>svg{background:${this.chartBackground};}</style>``. -/
def ExportConfig.styleBackgroundString (c : ExportConfig) : String :=
  "<style>svg\x7bbackground:" ++ c.chartBackground ++ ";\x7d</style>"

/-- Modelled from the spec: `constants.lineGradientId`, imported from
`./constants.js`, which is not among the sources.  The spec only says it is "a
known identifier (`lineGradientId`, an external constant)", so it is
represented by an abstract token. -/
def lineGradientId : String := "lineGradientId"

/-- Modelled from the spec: index 6 of `britechartsGreySchema`, imported from
`./colors.js`, which is not among the sources.  The spec only identifies it as
"a specific palette color (index 6 of the chart's grey color schema)", so the
concrete color value is represented by an abstract token. -/
def britechartsGreySchema6 : String := "britechartsGreySchema[6]"

/-! ### addBackground and formatHtmlByBrowser -/

/-- `addBackground(html)`: `html.replace('>', `>${config.styleBackgroundString}`)`
— inserts the background style rule after the first `>` of the markup. -/
def addBackground (html : String) : String :=
  replaceFirstStr html ">" (">" ++ config.styleBackgroundString)

/-- The replacement string of the Firefox quirk rewrite:
``url(&quot;#${constants.lineGradientId}&quot;);``. -/
def urlQuotReplacement : String :=
  "url(&quot;#" ++ lineGradientId ++ "&quot;);"

/-- `formatHtmlByBrowser(html)`: on Firefox, replace the first
`/url.*&quot;\)/` match by `urlQuotReplacement`; on any other browser return
the markup unchanged.  The browser name (`bowser.name`) is passed in. -/
def formatHtmlByBrowser (browserName : String) (html : String) : String :=
  if browserName = "Firefox" then regexReplaceUrlQuot html urlQuotReplacement
  else html

/-! ### The base64 encoder (`encoder = window.btoa`, with the `base-64`
package as fallback).  Both implementations accept exactly the binary strings
(every UTF-16 code unit below 256) and throw on anything else; on their shared
domain they produce standard base64. -/

/-- The base64 alphabet. -/
def b64Alphabet : String :=
  "ABCDEFGHIJKLMNOPQRSTUVWXYZabcdefghijklmnopqrstuvwxyz0123456789+/"

/-- Character for a sextet value (`n < 64`). -/
def b64Char (n : ℕ) : Char := b64Alphabet.data.getD n 'A'

/-- Sextet value of a base64 character (its index in the alphabet). -/
def b64Val (ch : Char) : ℕ := b64Alphabet.data.indexOf ch

/-- Base64-encode a byte list, three bytes to four characters, `=`-padded. -/
def encodeChunks : List ℕ → List Char
  | [] => []
  | [a] => [b64Char (a / 4), b64Char (a % 4 * 16), '=', '=']
  | [a, b] => [b64Char (a / 4), b64Char (a % 4 * 16 + b / 16), b64Char (b % 16 * 4), '=']
  | a :: b :: c :: rest =>
    b64Char (a / 4) :: b64Char (a % 4 * 16 + b / 16) ::
      b64Char (b % 16 * 4 + c / 64) :: b64Char (c % 64) :: encodeChunks rest

/-- Base64-decode, four characters to three bytes, honouring `=` padding. -/
def decodeChunks : List Char → List ℕ
  | w :: x :: y :: z :: rest =>
    if y = '=' then [b64Val w * 4 + b64Val x / 16]
    else if z = '=' then
      [b64Val w * 4 + b64Val x / 16, b64Val x % 16 * 16 + b64Val y / 4]
    else
      (b64Val w * 4 + b64Val x / 16) :: (b64Val x % 16 * 16 + b64Val y / 4) ::
        (b64Val y % 4 * 64 + b64Val z) :: decodeChunks rest
  | _ => []

/-- `encoder(s)` (`window.btoa`, or the `base-64` fallback — identical
behaviour): base64 of the string's code units; `none` models the
`InvalidCharacterError` both encoders throw when a code unit exceeds 255. -/
def encoder (s : String) : Option String :=
  if s.data.all (fun c => decide (c.toNat < 256)) then
    some (String.mk (encodeChunks (s.data.map Char.toNat)))
  else none

/-- Base64-decoding of a payload back to the string it encodes. -/
def b64decode (payload : String) : String :=
  String.mk ((decodeChunks payload.data).map (fun n => Char.ofNat n))

/-! ### JS coercion helpers -/

/-- Rendering of a JS number inside a template literal.  The only numbers the
module interpolates are `svgWidth/2 - titleWidth/2` for natural `svgWidth` and
`titleWidth`, so the denominator is 1 or 2; integers print with no decimal
point and odd halves print with a trailing `.5`. -/
def jsNumToString (q : ℚ) : String :=
  if q.den = 1 then toString q.num
  else (if q.num < 0 then "-" else "") ++ toString (q.num.natAbs / q.den) ++ ".5"

/-- `${x}` for a possibly-`undefined` string value: JS stringifies `undefined`
to `"undefined"`. -/
def jsTemplateString : Option String → String
  | none => "undefined"
  | some s => s

/-- JS `a || b` for a possibly-absent string `a`: `undefined`, `null` and the
empty string are falsy. -/
def jsOrString (v : Option String) (d : String) : String :=
  match v with
  | none => d
  | some s => if s = "" then d else s

/-- JS `!title` for a possibly-absent string. -/
def jsFalsyStr : Option String → Bool
  | none => true
  | some s => s == ""

/-- JS `!n` for a number that may be `NaN` (`none`): `NaN` and `0` are falsy. -/
def jsFalsyNum : Option ℕ → Bool
  | none => true
  | some n => n == 0

/-- `parseInt` applied to a possibly-absent attribute string: `none` models
`NaN`.  (Leading decimal digits are parsed; anything else yields `NaN`.) -/
def jsParseInt (s : Option String) : Option ℕ :=
  match s with
  | none => none
  | some str =>
    let ds := str.data.takeWhile Char.isDigit
    if ds.isEmpty then none
    else some (ds.foldl (fun a c => a * 10 + (c.toNat - 48)) 0)

/-! ### getTitleWidth -/

/-- The append half of `getTitleWidth`: build the transient
`<text id="britechart_title" ...>${title}</text>` node (via an off-document
`div`) and `document.body.appendChild` it.  Counts one measurement. -/
def mountTitleNode (st : ExportState) (title : String) : ExportState :=
  { st with doc := st.doc ++ [NodeKind.titleText title]
            measureCount := st.measureCount + 1 }

/-- `getTitleWidth(title)`: mount the transient text node, read
`document.getElementById('britechart_title').offsetWidth`, then
`text.remove()` the node (the node was appended last and nothing else touches
the document in between, so removing it is dropping the last node).  The
`getElementById` lookup cannot fail — the node just appended carries the id —
so the 0 in the unreachable branch is never produced
(`getElementById_always_finds` below). -/
def getTitleWidth (env : Env) (st : ExportState) (title : String) :
    ℕ × ExportState :=
  let st1 := mountTitleNode st title
  let found := st1.doc.find? (fun n => n.elemId == some "britechart_title")
  let titleWidth :=
    match found with
    | some n => env.offsetWidth n
    | none => 0
  (titleWidth, { st1 with doc := st1.doc.dropLast })

/-! ### prependTitle -/

/-- The replacement string `prependTitle` substitutes for the first `<g`,
with the exact whitespace of the source's template literal:
``svg">⏎<text x="${(svgWidth/ 2) - (titleWidth / 2)}" y="40" …
fill="${colors[6]}">⏎${title}⏎</text><g⏎``. -/
def titleReplacement (svgWidth titleWidth : ℕ) (title : String) : String :=
  "svg\">\n                <text x=\"" ++
    jsNumToString ((svgWidth : ℚ) / 2 - (titleWidth : ℚ) / 2) ++
    "\" y=\"40\" font-family=\"\x27Heebo\x27, sans-serif\" font-size=\"20px\" fill=\"" ++
    britechartsGreySchema6 ++ "\">\n                    " ++ title ++
    "\n                </text><g\n            "

/-- `prependTitle(html, title, svgWidth)`: identity when `title` or `svgWidth`
is falsy; otherwise measure the title's rendered width and replace the first
`<g` of the markup by `titleReplacement`. -/
def prependTitle (env : Env) (st : ExportState) (html : String)
    (title : Option String) (svgWidth : Option ℕ) : ExportState × String :=
  if jsFalsyStr title || jsFalsyNum svgWidth then (st, html)
  else
    let t := title.getD ""
    let w := svgWidth.getD 0
    let (titleWidth, st1) := getTitleWidth env st t
    (st1, replaceFirstStr html "<g" (titleReplacement w titleWidth t))

/-! ### Canvas, image, drawing, download -/

/-- `createCanvas(width, height)`. -/
def createCanvas (st : ExportState) (width height : ℕ) :
    ExportState × Canvas :=
  ({ st with canvasesCreated := st.canvasesCreated ++ [(width, height)] },
   { width := width, height := height })

/-- `createImage(svgHtml)`: `new Image()` with
`src = config.imageSourceBase + encoder(svgHtml)`; `none` models the exception
`encoder` throws on a non-binary string (in which case the just-created image
object is abandoned with the exception). -/
def createImage (st : ExportState) (svgHtml : Option String) :
    Option (ExportState × Image) :=
  match encoder (jsTemplateString svgHtml) with
  | none => none
  | some payload =>
    let img : Image := { src := config.imageSourceBase ++ payload }
    some ({ st with imagesCreated := st.imagesCreated ++ [img.src] }, img)

/-- `drawImageOnCanvas(image, canvas)`. -/
def drawImageOnCanvas (st : ExportState) (image : Image) (canvas : Canvas) :
    ExportState :=
  { st with draws := st.draws ++ [(image.src, canvas.width, canvas.height)] }

/-- The mount phase of `downloadCanvas`: resolve the default parameters, build
the `<a>` element pointing at `canvas.toDataURL(extensionType)` and
`document.body.appendChild` it. -/
def downloadCanvasMount (env : Env) (st : ExportState) (canvas : Canvas)
    (filename extensionType : Option String) : ExportState :=
  let fname := filename.getD "britechart.png"
  let ext := extensionType.getD "image/png"
  let url := env.toDataURL canvas ext
  { st with doc := st.doc ++ [NodeKind.link url fname] }

/-- `downloadCanvas(canvas, filename='britechart.png',
extensionType='image/png')`: append the link, `link.click()` (recorded as a
triggered download carrying the link's `download` name and `href`), then
`document.body.removeChild(link)` (the link was appended last and `click` does
not touch the node list, so removal drops the last node). -/
def downloadCanvas (env : Env) (st : ExportState) (canvas : Canvas)
    (filename extensionType : Option String) : ExportState :=
  let fname := filename.getD "britechart.png"
  let ext := extensionType.getD "image/png"
  let url := env.toDataURL canvas ext
  let mounted := downloadCanvasMount env st canvas filename extensionType
  let clicked := { mounted with downloads := mounted.downloads ++ [(fname, url)] }
  { clicked with doc := clicked.doc.dropLast }

/-- `handleImageLoad(canvas, filename, e)` with `this = img`:
`e.preventDefault()` (no observable state in this model), draw the image on
the canvas, then `downloadCanvas(canvas, filename || config.defaultFilename)`
(two arguments, so `extensionType` stays at its default). -/
def handleImageLoad (env : Env) (st : ExportState) (canvas : Canvas)
    (filename : Option String) (this : Image) (_e : LoadEvent) : ExportState :=
  let st1 := drawImageOnCanvas st this canvas
  downloadCanvas env st1 canvas (some (jsOrString filename config.defaultFilename)) none

/-! ### convertSvgToHtml and exportChart -/

/-- `convertSvgToHtml(d3svg, title)`: `undefined` (`none`) when the node is
absent; otherwise write the `version`/`xmlns` attributes, serialize with the
black-box style inliner, normalize for the browser, prepend the title (width
from `parseInt(d3svg.attr('width'))`) and add the background rule. -/
def convertSvgToHtml (env : Env) (st : ExportState) (d3svg : Option Svg)
    (title : Option String) : ExportState × Option String :=
  match d3svg with
  | none => (st, none)
  | some svg =>
    let svg := { svg with versionAttr := some "1.1"
                          xmlnsAttr := some "http://www.w3.org/2000/svg" }
    let html := env.serialize svg
    let html := formatHtmlByBrowser env.browserName html
    let (st1, html) := prependTitle env st html title (jsParseInt svg.widthAttr)
    (st1, some (addBackground html))

/-- `exportChart(d3svg, filename, title)` with `this.width()`/`this.height()`
passed explicitly: build the markup, create the image from it, create the
canvas, and bind `img.onload = handleImageLoad.bind(img, canvas, filename)`.
There is no early return: every step runs whether or not `d3svg` was present.
`none` models a thrown exception. -/
def exportChart (env : Env) (st : ExportState) (d3svg : Option Svg)
    (filename title : Option String) (width height : ℕ) :
    Option ExportState :=
  let (st1, html) := convertSvgToHtml env st d3svg title
  match createImage st1 html with
  | none => none
  | some (st2, img) =>
    let (st3, canvas) := createCanvas st2 width height
    some { st3 with
            onloadBound := st3.onloadBound ++
              [(img.src, (canvas.width, canvas.height), filename)] }

/-- A concrete environment used by the closed evaluation theorems below. -/
def demoEnv : Env :=
  { browserName := "Chrome"
    serialize := fun _ => "<svg><g></g></svg>"
    offsetWidth := fun _ => 80
    toDataURL := fun c ext =>
      "dataURL(" ++ toString c.width ++ "x" ++ toString c.height ++ "," ++ ext ++ ")" }

/-! ## Helper lemmas -/

set_option maxRecDepth 10000

/-- GetSubstitution on a leading character other than `$` emits it and
continues. -/
theorem jsSubst_cons_ne (m b a : List Char) (c : Char) (rest : List Char)
    (hc : c ≠ '$') :
    jsSubst m b a (c :: rest) = c :: jsSubst m b a rest := by
  rw [jsSubst.eq_def]
  simp [hc]

/-- GetSubstitution is the identity on replacement templates without `$`. -/
theorem jsSubst_no_dollar (m b a l : List Char) (h : '$' ∉ l) :
    jsSubst m b a l = l := by
  induction l with
  | nil => rfl
  | cons c rest ih =>
    have hc : c ≠ '$' := fun hh => h (hh ▸ List.mem_cons_self c rest)
    have hr : '$' ∉ rest := fun hh => h (List.mem_cons_of_mem c hh)
    rw [jsSubst_cons_ne m b a c rest hc, ih hr]

/-- `replace` leaves a string untouched when the (nonempty) pattern does not
occur in it, whatever prefix has already been scanned. -/
theorem replaceFirstAux_of_not_infix (pat repl : List Char) (hne : pat ≠ [])
    (s : List Char) (h : ¬ pat <:+: s) :
    ∀ b, replaceFirstAux pat repl b s = s := by
  induction s with
  | nil =>
    intro b
    simp only [replaceFirstAux]
    rw [if_neg]
    intro hp
    exact hne (List.prefix_nil.mp (List.isPrefixOf_iff_prefix.mp hp))
  | cons c rest ih =>
    intro b
    simp only [replaceFirstAux]
    rw [if_neg, ih (fun hinf => h (List.infix_cons hinf)) (b ++ [c])]
    intro hp
    exact h (List.isPrefixOf_iff_prefix.mp hp).isInfix

/-- `replaceFirstAux_of_not_infix` from an empty scanned prefix. -/
theorem replaceFirstList_of_not_infix (pat repl : List Char) (hne : pat ≠ [])
    (s : List Char) (h : ¬ pat <:+: s) : replaceFirstList pat repl s = s :=
  replaceFirstAux_of_not_infix pat repl hne s h []

/-- For a single-character pattern absent from `pre`, `replace` substitutes
exactly at the first occurrence after `pre`; the text preceding the match is
the scanned prefix `b` followed by `pre`. -/
theorem replaceFirstAux_single (ch : Char) (repl pre post : List Char)
    (h : ch ∉ pre) : ∀ b,
    replaceFirstAux [ch] repl b (pre ++ ch :: post) =
      pre ++ jsSubst [ch] (b ++ pre) post repl ++ post := by
  induction pre with
  | nil =>
    intro b
    simp only [List.nil_append, replaceFirstAux]
    rw [if_pos (List.isPrefixOf_iff_prefix.mpr
      (List.cons_prefix_cons.mpr ⟨rfl, List.nil_prefix⟩))]
    simp
  | cons a rest ih =>
    intro b
    have hne : a ≠ ch := fun hac => h (hac ▸ List.mem_cons_self a rest)
    have hrest : ch ∉ rest := fun hc => h (List.mem_cons_of_mem a hc)
    have hacc : b ++ [a] ++ rest = b ++ a :: rest := by simp
    simp only [List.cons_append, replaceFirstAux, List.append_eq]
    rw [if_neg, ih hrest (b ++ [a]), hacc]
    intro hp
    have := List.cons_prefix_cons.mp (List.isPrefixOf_iff_prefix.mp hp)
    exact hne this.1.symm

/-- Single-character `replace` with a `$`-free replacement splices it
literally. -/
theorem replaceFirstList_single (ch : Char) (repl pre post : List Char)
    (h : ch ∉ pre) (hd : '$' ∉ repl) :
    replaceFirstList [ch] repl (pre ++ ch :: post) = pre ++ repl ++ post := by
  rw [replaceFirstList, replaceFirstAux_single ch repl pre post h [],
    List.nil_append, jsSubst_no_dollar _ _ _ _ hd]

/-- For a two-character pattern with distinct characters that is not an infix
of `pre`, `replace` substitutes exactly at the occurrence after `pre`. -/
theorem replaceFirstAux_two (c1 c2 : Char) (repl pre post : List Char)
    (hne : c1 ≠ c2) (h : ¬ [c1, c2] <:+: pre) : ∀ b,
    replaceFirstAux [c1, c2] repl b (pre ++ [c1, c2] ++ post) =
      pre ++ jsSubst [c1, c2] (b ++ pre) post repl ++ post := by
  induction pre with
  | nil =>
    intro b
    have hpres : [c1, c2].isPrefixOf (c1 :: c2 :: post) = true :=
      List.isPrefixOf_iff_prefix.mpr
        (List.cons_prefix_cons.mpr ⟨rfl,
          List.cons_prefix_cons.mpr ⟨rfl, List.nil_prefix⟩⟩)
    simp only [List.nil_append, List.cons_append]
    rw [replaceFirstAux, if_pos hpres]
    simp
  | cons a rest ih =>
    intro b
    have hni : ¬ [c1, c2] <:+: rest := fun hi => h (List.infix_cons hi)
    simp only [List.cons_append, List.append_assoc] at *
    simp only [replaceFirstAux, List.append_eq]
    rw [if_neg, ih hni (b ++ [a])]
    · simp
    intro hb
    have hp := List.cons_prefix_cons.mp (List.isPrefixOf_iff_prefix.mp hb)
    obtain ⟨h1, hp2⟩ := hp
    cases rest with
    | nil =>
      rw [List.nil_append] at hp2
      have h2 := (List.cons_prefix_cons.mp hp2).1
      exact hne h2.symm
    | cons d rest2 =>
      rw [List.cons_append] at hp2
      have h2 := List.cons_prefix_cons.mp hp2
      apply h
      refine List.IsPrefix.isInfix ?_
      exact List.cons_prefix_cons.mpr
        ⟨h1, List.cons_prefix_cons.mpr ⟨h2.1, List.nil_prefix⟩⟩

/-- Two-character `replace` with a `$`-free replacement splices it
literally. -/
theorem replaceFirstList_two (c1 c2 : Char) (repl pre post : List Char)
    (hne : c1 ≠ c2) (h : ¬ [c1, c2] <:+: pre) (hd : '$' ∉ repl) :
    replaceFirstList [c1, c2] repl (pre ++ [c1, c2] ++ post) =
      pre ++ repl ++ post := by
  rw [replaceFirstList, replaceFirstAux_two c1 c2 repl pre post hne h [],
    List.nil_append, jsSubst_no_dollar _ _ _ _ hd]

/-- The base64 alphabet table inverts its own indexing. -/
theorem b64Val_b64Char : ∀ n : ℕ, n < 64 → b64Val (b64Char n) = n := by decide

/-- No alphabet character is the padding character. -/
theorem b64Char_ne_pad : ∀ n : ℕ, n < 64 → b64Char n ≠ '=' := by decide

/-- Unfolding of `decodeChunks` on a chunk ending `==`. -/
theorem decodeChunks_pad2 (w x z : Char) (rest : List Char) :
    decodeChunks (w :: x :: '=' :: z :: rest) =
      [b64Val w * 4 + b64Val x / 16] := by
  simp [decodeChunks]

/-- Unfolding of `decodeChunks` on a chunk ending `=`. -/
theorem decodeChunks_pad1 (w x y : Char) (rest : List Char) (hy : y ≠ '=') :
    decodeChunks (w :: x :: y :: '=' :: rest) =
      [b64Val w * 4 + b64Val x / 16, b64Val x % 16 * 16 + b64Val y / 4] := by
  simp [decodeChunks, hy]

/-- Unfolding of `decodeChunks` on an unpadded chunk. -/
theorem decodeChunks_full (w x y z : Char) (rest : List Char)
    (hy : y ≠ '=') (hz : z ≠ '=') :
    decodeChunks (w :: x :: y :: z :: rest) =
      (b64Val w * 4 + b64Val x / 16) :: (b64Val x % 16 * 16 + b64Val y / 4) ::
        (b64Val y % 4 * 64 + b64Val z) :: decodeChunks rest := by
  simp [decodeChunks, hy, hz]

/-- Base64 decoding inverts base64 encoding on byte lists. -/
theorem decodeChunks_encodeChunks :
    ∀ l : List ℕ, (∀ x ∈ l, x < 256) → decodeChunks (encodeChunks l) = l
  | [], _ => rfl
  | [a], h => by
    have ha : a < 256 := h a (by simp)
    simp only [encodeChunks]
    rw [decodeChunks_pad2,
      b64Val_b64Char _ (by omega), b64Val_b64Char _ (by omega)]
    simp only [List.cons.injEq, and_true]
    omega
  | [a, b], h => by
    have ha : a < 256 := h a (by simp)
    have hb : b < 256 := h b (by simp)
    simp only [encodeChunks]
    rw [decodeChunks_pad1 _ _ _ _ (b64Char_ne_pad _ (by omega)),
      b64Val_b64Char _ (by omega), b64Val_b64Char _ (by omega),
      b64Val_b64Char _ (by omega)]
    simp only [List.cons.injEq, and_true]
    omega
  | a :: b :: c :: rest, h => by
    have ha : a < 256 := h a (by simp)
    have hb : b < 256 := h b (by simp)
    have hc : c < 256 := h c (by simp)
    have ih :=
      decodeChunks_encodeChunks rest (fun x hx => h x (by simp [hx]))
    simp only [encodeChunks]
    rw [decodeChunks_full _ _ _ _ _
        (b64Char_ne_pad _ (by omega)) (b64Char_ne_pad _ (by omega)),
      b64Val_b64Char _ (by omega), b64Val_b64Char _ (by omega),
      b64Val_b64Char _ (by omega), b64Val_b64Char _ (by omega)]
    simp only [List.cons.injEq]
    exact ⟨by omega, by omega, by omega, ih⟩

/-- Bytes of a binary string survive the char ↔ code-unit round trip. -/
theorem map_ofNat_toNat (cs : List Char) :
    cs.map (fun c => Char.ofNat c.toNat) = cs := by
  induction cs with
  | nil => rfl
  | cons c rest ih => simp [ih, Char.ofNat_toNat]

/-- The `getElementById` lookup inside `getTitleWidth` always succeeds: the
measurement node just appended carries the searched id. -/
theorem getElementById_always_finds (st : ExportState) (title : String) :
    ((mountTitleNode st title).doc.find?
      (fun n => n.elemId == some "britechart_title")).isSome := by
  simp [mountTitleNode, List.find?_append, Option.isSome_or, NodeKind.elemId]

/-- When no pre-existing node carries the measurement id, the width returned
by `getTitleWidth` is the rendered width of the mounted title node. -/
theorem getTitleWidth_width (env : Env) (st : ExportState) (title : String)
    (hdoc : ∀ n ∈ st.doc, n.elemId ≠ some "britechart_title") :
    (getTitleWidth env st title).1 =
      env.offsetWidth (NodeKind.titleText title) := by
  have hnone : st.doc.find? (fun n => n.elemId == some "britechart_title") = none :=
    List.find?_eq_none.mpr (fun x hx => by simpa using hdoc x hx)
  simp only [getTitleWidth, mountTitleNode, List.find?_append, hnone, Option.none_or]
  rfl

/-- The document node list after `getTitleWidth` is the one before it. -/
theorem getTitleWidth_doc (env : Env) (st : ExportState) (title : String) :
    ((getTitleWidth env st title).2).doc = st.doc := by
  simp [getTitleWidth, mountTitleNode]

/-- `getTitleWidth` changes no state other than counting one measurement. -/
theorem getTitleWidth_state (env : Env) (st : ExportState) (title : String) :
    (getTitleWidth env st title).2 =
      { st with measureCount := st.measureCount + 1 } := by
  simp [getTitleWidth, mountTitleNode]

/-- String-level form of `replaceFirstAux_two` for the `<g` anchor: the
replacement is spliced through GetSubstitution with the matched `<g` and the
surrounding markup. -/
theorem replaceFirstStr_at_g (pre post repl : String)
    (hpre : ¬ "<g".data <:+: pre.data) :
    replaceFirstStr (pre ++ "<g" ++ post) "<g" repl =
      pre ++ String.mk (jsSubst "<g".data pre.data post.data repl.data) ++
        post := by
  unfold replaceFirstStr replaceFirstList
  rw [show (pre ++ "<g" ++ post).data = pre.data ++ ['<', 'g'] ++ post.data from rfl]
  rw [show ("<g".data : List Char) = ['<', 'g'] from rfl]
  rw [replaceFirstAux_two '<' 'g' repl.data pre.data post.data (by decide) hpre []]
  rw [List.nil_append]
  rfl

/-- When `title` and `svgWidth` are truthy, `prependTitle` measures and then
substitutes the title replacement for the first `<g`. -/
theorem prependTitle_truthy (env : Env) (st : ExportState) (html : String)
    (title : String) (w : ℕ) (htitle : title ≠ "") (hw : w ≠ 0) :
    (prependTitle env st html (some title) (some w)).2 =
      replaceFirstStr html "<g"
        (titleReplacement w (getTitleWidth env st title).1 title) := by
  simp [prependTitle, jsFalsyStr, jsFalsyNum, htitle, hw]

/-- `addBackground` on markup whose opening tag contains no stray `>` inserts
the style rule right after the tag and keeps the rest unchanged. -/
theorem addBackground_split (attrs rest : String) (h : '>' ∉ attrs.data) :
    addBackground ("<svg" ++ attrs ++ ">" ++ rest) =
      "<svg" ++ attrs ++ ">" ++ config.styleBackgroundString ++ rest := by
  unfold addBackground replaceFirstStr
  rw [show ("<svg" ++ attrs ++ ">" ++ rest).data =
        ("<svg".data ++ attrs.data) ++ '>' :: rest.data by
      simp [List.append_assoc]]
  rw [show (">".data : List Char) = ['>'] from rfl]
  rw [show ((">" ++ config.styleBackgroundString).data : List Char) =
        '>' :: config.styleBackgroundString.data from rfl]
  rw [replaceFirstList_single '>' _ _ _
      (by simp only [List.mem_append]
          rintro (hc | hc)
          · exact absurd hc (by decide)
          · exact h hc)
      (by decide)]
  rw [String.ext_iff]
  simp [List.append_assoc]

/-! ## The claims -/

/-- C1: the claim states that with an absent (falsy) graphic node,
`exportChart` aborts immediately with no side effects — no image object, no
canvas, no link element, no error.  Evaluating the code at that input shows
what actually happens: no error is thrown and no link is created, but
`exportChart` has no early return, so `createImage` still runs on the
`undefined` markup — creating an `Image` whose `src` is the data URI of the
base64 encoding of the string `"undefined"` — a canvas is still created, and
an `onload` handler is still bound. -/
theorem exportChart_absent_node_still_creates_artifacts :
    exportChart demoEnv initState none none none 400 200 =
      some { initState with
              imagesCreated := ["data:image/svg+xml;base64,dW5kZWZpbmVk"]
              canvasesCreated := [(400, 200)]
              onloadBound :=
                [("data:image/svg+xml;base64,dW5kZWZpbmVk", (400, 200), none)] } :=
  rfl

/-- C2 counterexample: the claim asserts `normalize(normalize(m, b), b) =
normalize(m, b)` for every browser `b`, but for Firefox this fails — the
replacement string itself matches the quirk pattern `/url.*&quot;\)/`, so a
second pass rewrites it again and appends a stray semicolon. -/
theorem formatHtmlByBrowser_firefox_not_idempotent :
    formatHtmlByBrowser "Firefox"
        (formatHtmlByBrowser "Firefox" "url&quot;)") ≠
      formatHtmlByBrowser "Firefox" "url&quot;)" := by decide

/-- C2 (amended): the quirk normalizer is a pure string transform that is the
identity — hence idempotent — for every browser other than Firefox (in
particular Chrome), and under Firefox it rewrites the gradient URL fragment
(leftmost greedy match of `url.*&quot;\)` becomes
`url(&quot;#lineGradientId&quot;);`); it is however not idempotent under
Firefox on markup containing a match. -/
theorem formatHtmlByBrowser_amended (b markup : String) (h : b ≠ "Firefox") :
    formatHtmlByBrowser b markup = markup ∧
    formatHtmlByBrowser b (formatHtmlByBrowser b markup) =
      formatHtmlByBrowser b markup ∧
    formatHtmlByBrowser "Chrome" markup = markup ∧
    formatHtmlByBrowser "Firefox" "url(&quot;#oldGradient&quot;)" =
      "url(&quot;#lineGradientId&quot;);" := by
  have hb : ∀ m : String, formatHtmlByBrowser b m = m := fun m => by
    rw [formatHtmlByBrowser, if_neg h]
  have hch : formatHtmlByBrowser "Chrome" markup = markup := by
    rw [formatHtmlByBrowser, if_neg (by decide)]
  exact ⟨hb markup, by rw [hb, hb], hch, by decide⟩

/-- C2 witness: the amended statement at `b = "Chrome"`,
`markup = "<svg/>"`. -/
theorem formatHtmlByBrowser_amended_witness :
    formatHtmlByBrowser "Chrome" "<svg/>" = "<svg/>" ∧
    formatHtmlByBrowser "Chrome" (formatHtmlByBrowser "Chrome" "<svg/>") =
      formatHtmlByBrowser "Chrome" "<svg/>" ∧
    formatHtmlByBrowser "Chrome" "<svg/>" = "<svg/>" ∧
    formatHtmlByBrowser "Firefox" "url(&quot;#oldGradient&quot;)" =
      "url(&quot;#lineGradientId&quot;);" :=
  formatHtmlByBrowser_amended "Chrome" "<svg/>" (by decide)

/-- C3: on markup whose first group opening tag `<g` follows `pre`, with a
non-empty title and non-zero width, `prependTitle` replaces that first `<g`
with the GetSubstitution expansion of the title replacement template — so the
output is exact for every title; whenever the instantiated template contains
no `$` (every title without `$`-patterns) the expansion is the template
itself, a blob containing a `<text>` element at `y="40"`,
`x = svgWidth/2 - titleWidth/2` (where `titleWidth` is the rendered width the
browser reports for the mounted title node), filled with index 6 of the grey
color schema, immediately before the re-emitted `<g`; and with `svgWidth=400`
and measured width 80 the x attribute renders as `160`. -/
theorem prependTitle_inserts_centered_title (env : Env) (st : ExportState)
    (pre post title : String) (w : ℕ)
    (hpre : ¬ "<g".data <:+: pre.data) (htitle : title ≠ "") (hw : w ≠ 0)
    (hdoc : ∀ n ∈ st.doc, n.elemId ≠ some "britechart_title") :
    (prependTitle env st (pre ++ "<g" ++ post) (some title) (some w)).2 =
      pre ++
        String.mk (jsSubst "<g".data pre.data post.data
          (titleReplacement w (env.offsetWidth (NodeKind.titleText title))
            title).data) ++ post ∧
    ('$' ∉ (titleReplacement w (env.offsetWidth (NodeKind.titleText title))
        title).data →
      String.mk (jsSubst "<g".data pre.data post.data
          (titleReplacement w (env.offsetWidth (NodeKind.titleText title))
            title).data) =
        titleReplacement w (env.offsetWidth (NodeKind.titleText title)) title) ∧
    titleReplacement w (env.offsetWidth (NodeKind.titleText title)) title =
      "svg\">\n                <text x=\"" ++
        jsNumToString ((w : ℚ) / 2 -
          (env.offsetWidth (NodeKind.titleText title) : ℚ) / 2) ++
        "\" y=\"40\" font-family=\"\x27Heebo\x27, sans-serif\" font-size=\"20px\" fill=\"" ++
        britechartsGreySchema6 ++ "\">\n                    " ++ title ++
        "\n                </text><g\n            " ∧
    jsNumToString ((400 : ℚ) / 2 - (80 : ℚ) / 2) = "160" := by
  refine ⟨?_, ?_, rfl, ?_⟩
  · rw [prependTitle_truthy env st _ title w htitle hw,
      getTitleWidth_width env st title hdoc,
      replaceFirstStr_at_g pre post _ hpre]
  · intro hd
    rw [jsSubst_no_dollar _ _ _ _ hd]
  · rw [show ((400 : ℚ) / 2 - (80 : ℚ) / 2) = (160 : ℚ) by norm_num]
    rfl

/-- C3 witness: the theorem applied at `demoEnv` (measured width 80), width
400 and title `"Revenue"`. -/
theorem prependTitle_inserts_centered_title_witness :
    (prependTitle demoEnv initState ("<svg>" ++ "<g" ++ "</g></svg>")
        (some "Revenue") (some 400)).2 =
      "<svg>" ++
        String.mk (jsSubst "<g".data "<svg>".data "</g></svg>".data
          (titleReplacement 400
            (demoEnv.offsetWidth (NodeKind.titleText "Revenue"))
            "Revenue").data) ++ "</g></svg>" ∧
    ('$' ∉ (titleReplacement 400
        (demoEnv.offsetWidth (NodeKind.titleText "Revenue")) "Revenue").data →
      String.mk (jsSubst "<g".data "<svg>".data "</g></svg>".data
          (titleReplacement 400
            (demoEnv.offsetWidth (NodeKind.titleText "Revenue"))
            "Revenue").data) =
        titleReplacement 400
          (demoEnv.offsetWidth (NodeKind.titleText "Revenue")) "Revenue") ∧
    titleReplacement 400 (demoEnv.offsetWidth (NodeKind.titleText "Revenue"))
        "Revenue" =
      "svg\">\n                <text x=\"" ++
        jsNumToString ((400 : ℚ) / 2 -
          (demoEnv.offsetWidth (NodeKind.titleText "Revenue") : ℚ) / 2) ++
        "\" y=\"40\" font-family=\"\x27Heebo\x27, sans-serif\" font-size=\"20px\" fill=\"" ++
        britechartsGreySchema6 ++ "\">\n                    " ++ "Revenue" ++
        "\n                </text><g\n            " ∧
    jsNumToString ((400 : ℚ) / 2 - (80 : ℚ) / 2) = "160" :=
  prependTitle_inserts_centered_title demoEnv initState "<svg>" "</g></svg>"
    "Revenue" 400 (by decide) (by decide) (by decide)
    (by intro n hn; simp [initState] at hn)

/-- C4 counterexample: the claim quantifies over every markup string, but on
markup containing a code unit of 256 or more — reachable, e.g. through a
non-ASCII title spliced into the markup — both `window.btoa` and the
`base-64` fallback throw an error instead of producing a payload, so no data
URI exists and nothing can be decoded back; here evaluated at the CJK
character U+4E2D. -/
theorem encoder_throws_outside_latin1 :
    encoder "\u4E2D" = none ∧ createImage initState (some "\u4E2D") = none := by
  exact ⟨rfl, rfl⟩

/-- C4 (amended): for every markup string all of whose code units are below
256 — the domain of both `window.btoa` and the `base-64` fallback, which
throw on any other string — the encoder yields a payload, `createImage` sets
the image source to the configured data-URI prefix followed by that payload,
and base64-decoding the payload reproduces the markup exactly. -/
theorem createImage_encodes_base64_roundtrip (st : ExportState)
    (markup : String) (h : ∀ c ∈ markup.data, c.toNat < 256) :
    ∃ payload st2 img,
      encoder markup = some payload ∧
      createImage st (some markup) = some (st2, img) ∧
      img.src = config.imageSourceBase ++ payload ∧
      b64decode payload = markup := by
  have hall : markup.data.all (fun c => decide (c.toNat < 256)) = true := by
    rw [List.all_eq_true]
    intro c hc
    simpa using h c hc
  have henc : encoder markup =
      some (String.mk (encodeChunks (markup.data.map Char.toNat))) := by
    rw [encoder, if_pos hall]
  have hbytes : ∀ x ∈ markup.data.map Char.toNat, x < 256 := by
    intro x hx
    obtain ⟨c, hc, rfl⟩ := List.mem_map.mp hx
    exact h c hc
  refine ⟨String.mk (encodeChunks (markup.data.map Char.toNat)),
    { st with imagesCreated := st.imagesCreated ++
        [config.imageSourceBase ++
          String.mk (encodeChunks (markup.data.map Char.toNat))] },
    { src := config.imageSourceBase ++
        String.mk (encodeChunks (markup.data.map Char.toNat)) },
    henc, ?_, rfl, ?_⟩
  · rw [createImage, show jsTemplateString (some markup) = markup from rfl, henc]
  · rw [b64decode,
      show (String.mk (encodeChunks (markup.data.map Char.toNat))).data =
        encodeChunks (markup.data.map Char.toNat) from rfl,
      decodeChunks_encodeChunks _ hbytes, List.map_map,
      show ((fun n => Char.ofNat n) ∘ Char.toNat) =
        (fun c => Char.ofNat c.toNat) from rfl,
      map_ofNat_toNat]

/-- C4 witness: the round trip at the concrete markup `"<svg/>"`. -/
theorem createImage_encodes_base64_roundtrip_witness :
    ∃ payload st2 img,
      encoder "<svg/>" = some payload ∧
      createImage initState (some "<svg/>") = some (st2, img) ∧
      img.src = config.imageSourceBase ++ payload ∧
      b64decode payload = "<svg/>" :=
  createImage_encodes_base64_roundtrip initState "<svg/>" (by decide)

/-- C5: with an absent or empty title, or an absent (`NaN`) or zero width,
`prependTitle` returns the state and the markup untouched: no node is
mounted, no measurement is made, and nothing is inserted. -/
theorem prependTitle_falsy_is_identity (env : Env) (st : ExportState)
    (html : String) (title : Option String) (w : Option ℕ)
    (h : title = none ∨ title = some "" ∨ w = none ∨ w = some 0) :
    prependTitle env st html title w = (st, html) := by
  rcases h with h | h | h | h <;> subst h <;>
    simp [prependTitle, jsFalsyStr, jsFalsyNum]

/-- C5 witness: identity at an absent title with width 400, on markup that
does contain a `<g` anchor. -/
theorem prependTitle_falsy_is_identity_witness :
    prependTitle demoEnv initState "<svg><g></g></svg>" none (some 400) =
      (initState, "<svg><g></g></svg>") :=
  prependTitle_falsy_is_identity demoEnv initState "<svg><g></g></svg>" none
    (some 400) (Or.inl rfl)

/-- Markup that begins with an opening tag whose length (plus the style
rule's) exceeds 200 characters; used to refute the universally quantified
first-200-characters clause of claim C6. -/
def longTagMarkup : String :=
  "<svg " ++ String.mk (List.replicate 170 'a') ++ "><g></g></svg>"

/-- C6 counterexample: the claim asserts that for every markup beginning with
an opening `<svg ...>` tag the first 200 characters of the output contain the
background style rule; with a 176-character opening tag the rule starts at
position 176 and does not fit inside the first 200 characters. -/
theorem addBackground_first200_counterexample :
    ¬ config.styleBackgroundString.data <:+:
      ((addBackground longTagMarkup).data.take 200) := by decide

/-- C6 (amended): for markup beginning with an opening `<svg ...>` tag whose
attribute text contains no `>`, `addBackground` injects the configured
background style rule immediately after that opening tag, leaving the rest of
the markup unchanged; the rule lies within the first 200 characters whenever
the opening tag plus the rule fit in 200 characters. -/
theorem addBackground_injects_after_opening_tag (attrs rest : String)
    (h : '>' ∉ attrs.data) :
    addBackground ("<svg" ++ attrs ++ ">" ++ rest) =
      "<svg" ++ attrs ++ ">" ++ config.styleBackgroundString ++ rest ∧
    (("<svg" ++ attrs ++ ">").length + config.styleBackgroundString.length ≤ 200 →
      config.styleBackgroundString.data <:+:
        ((addBackground ("<svg" ++ attrs ++ ">" ++ rest)).data.take 200)) := by
  refine ⟨addBackground_split attrs rest h, fun hlen => ?_⟩
  rw [addBackground_split attrs rest h]
  rw [show ("<svg" ++ attrs ++ ">" ++ config.styleBackgroundString ++ rest).data =
        ("<svg" ++ attrs ++ ">").data ++ config.styleBackgroundString.data ++
          rest.data by simp [List.append_assoc]]
  have h1 : ("<svg" ++ attrs ++ ">").data.length +
      config.styleBackgroundString.data.length ≤ 200 := hlen
  rw [List.append_assoc, List.take_append_eq_append_take,
    List.take_append_eq_append_take,
    List.take_of_length_le (by omega), List.take_of_length_le (by omega)]
  exact ⟨("<svg" ++ attrs ++ ">").data,
    rest.data.take (200 - ("<svg" ++ attrs ++ ">").data.length -
      config.styleBackgroundString.data.length),
    by simp [List.append_assoc]⟩

/-- C6 amended witness: the insertion and the 200-character clause at a short
concrete opening tag. -/
theorem addBackground_injects_after_opening_tag_witness :
    addBackground ("<svg" ++ " width=\"400\"" ++ ">" ++ "<g></g></svg>") =
      "<svg" ++ " width=\"400\"" ++ ">" ++ config.styleBackgroundString ++
        "<g></g></svg>" ∧
    (("<svg" ++ " width=\"400\"" ++ ">").length +
        config.styleBackgroundString.length ≤ 200 →
      config.styleBackgroundString.data <:+:
        ((addBackground ("<svg" ++ " width=\"400\"" ++ ">" ++ "<g></g></svg>")).data.take
          200)) :=
  addBackground_injects_after_opening_tag " width=\"400\"" "<g></g></svg>"
    (by decide)

/-- C7 counterexample: the claim asserts that a missing insertion anchor makes
the string-based insertion produce malformed (corrupted) output; in fact JS
`replace` with no match returns the string unchanged, so on markup with no
`<g` the title insertion is the identity, and on markup with no `>` the
background insertion is the identity — nothing is corrupted. -/
theorem anchor_missing_output_not_corrupted :
    (prependTitle demoEnv initState "<svg width=\"400\"><rect/></svg>"
        (some "Revenue") (some 400)).2 = "<svg width=\"400\"><rect/></svg>" ∧
    addBackground "no closing bracket here" = "no closing bracket here" := by
  constructor
  · decide
  · decide

/-- C7 (amended): when the insertion anchor is not found the string-based
insertion silently does nothing: `prependTitle` (with truthy title and width)
returns the markup unchanged when it has no `<g`, and `addBackground` returns
the markup unchanged when it has no `>`; the title or background is silently
dropped, with no detection and no corruption. -/
theorem anchor_missing_leaves_markup_unchanged (env : Env) (st : ExportState)
    (html html2 title : String) (w : ℕ)
    (hg : ¬ "<g".data <:+: html.data) (htitle : title ≠ "") (hw : w ≠ 0)
    (hgt : '>' ∉ html2.data) :
    (prependTitle env st html (some title) (some w)).2 = html ∧
    addBackground html2 = html2 := by
  constructor
  · rw [prependTitle_truthy env st html title w htitle hw, replaceFirstStr,
      replaceFirstList_of_not_infix "<g".data _ (by decide) html.data hg]
  · have hinf : ¬ (">".data : List Char) <:+: html2.data := by
      rintro ⟨s, t, hst⟩
      exact hgt (by rw [← hst]; simp [show (">".data : List Char) = ['>'] from rfl])
    rw [addBackground, replaceFirstStr,
      replaceFirstList_of_not_infix ">".data _ (by decide) html2.data hinf]

/-- C7 amended witness: anchorless inputs on which both insertions are the
identity. -/
theorem anchor_missing_leaves_markup_unchanged_witness :
    (prependTitle demoEnv initState "<svg><rect/></svg>"
        (some "Revenue") (some 400)).2 = "<svg><rect/></svg>" ∧
    addBackground "plain text markup" = "plain text markup" :=
  anchor_missing_leaves_markup_unchanged demoEnv initState "<svg><rect/></svg>"
    "plain text markup" "Revenue" 400 (by decide) (by decide) (by decide)
    (by decide)

/-- C8: `getTitleWidth` appends the transient measurement node to the live
document, its `getElementById` lookup always succeeds (the appended node
carries the id, so no failure path can skip the removal), and after the call
the document's node list is exactly what it was before. -/
theorem getTitleWidth_scoped_acquisition (env : Env) (st : ExportState)
    (title : String) :
    (mountTitleNode st title).doc = st.doc ++ [NodeKind.titleText title] ∧
    ((mountTitleNode st title).doc.find?
        (fun n => n.elemId == some "britechart_title")).isSome ∧
    ((getTitleWidth env st title).2).doc = st.doc :=
  ⟨rfl, getElementById_always_finds st title, getTitleWidth_doc env st title⟩

/-- C9: `downloadCanvas` appends exactly one link element (carrying the given
download filename and the canvas data URI with the default `image/png` MIME
type), triggers the download, and detaches the link, restoring the document's
node list. -/
theorem downloadCanvas_scoped_link_default_mime (env : Env)
    (st : ExportState) (canvas : Canvas) (fn : String) :
    (downloadCanvasMount env st canvas (some fn) none).doc =
      st.doc ++ [NodeKind.link (env.toDataURL canvas "image/png") fn] ∧
    (downloadCanvas env st canvas (some fn) none).doc = st.doc ∧
    (downloadCanvas env st canvas (some fn) none).downloads =
      st.downloads ++ [(fn, env.toDataURL canvas "image/png")] := by
  refine ⟨rfl, ?_, rfl⟩
  simp [downloadCanvas, downloadCanvasMount]

/-- C10: `handleImageLoad` triggers the download under the configured default
name `britechart.png` when the filename is absent (`undefined`/`null`) or
empty, and under exactly the given name when it is non-empty. -/
theorem handleImageLoad_filename_defaulting (env : Env) (st : ExportState)
    (canvas : Canvas) (img : Image) (e : LoadEvent) (fn : String)
    (hfn : fn ≠ "") :
    (handleImageLoad env st canvas none img e).downloads =
      st.downloads ++ [("britechart.png", env.toDataURL canvas "image/png")] ∧
    (handleImageLoad env st canvas (some "") img e).downloads =
      st.downloads ++ [("britechart.png", env.toDataURL canvas "image/png")] ∧
    (handleImageLoad env st canvas (some fn) img e).downloads =
      st.downloads ++ [(fn, env.toDataURL canvas "image/png")] := by
  refine ⟨rfl, rfl, ?_⟩
  simp [handleImageLoad, downloadCanvas, downloadCanvasMount,
    drawImageOnCanvas, jsOrString, hfn, config]

/-- C10 witness: defaulting behaviour at a concrete canvas and the concrete
filename `"sales.png"`. -/
theorem handleImageLoad_filename_defaulting_witness :
    (handleImageLoad demoEnv initState { width := 400, height := 200 } none
        { src := "imgsrc" } { }).downloads =
      initState.downloads ++
        [("britechart.png",
          demoEnv.toDataURL { width := 400, height := 200 } "image/png")] ∧
    (handleImageLoad demoEnv initState { width := 400, height := 200 }
        (some "") { src := "imgsrc" } { }).downloads =
      initState.downloads ++
        [("britechart.png",
          demoEnv.toDataURL { width := 400, height := 200 } "image/png")] ∧
    (handleImageLoad demoEnv initState { width := 400, height := 200 }
        (some "sales.png") { src := "imgsrc" } { }).downloads =
      initState.downloads ++
        [("sales.png",
          demoEnv.toDataURL { width := 400, height := 200 } "image/png")] :=
  handleImageLoad_filename_defaulting demoEnv initState
    { width := 400, height := 200 } { src := "imgsrc" } { } "sales.png"
    (by decide)
